import Mathlib

/-!
# Inochi2D C interface (`include/inochi2d.h`)

A shallow embedding of the declarations of the header: the preprocessor
configuration, the plain-old-data records with their C layout, the three
enumerations and the fifty function prototypes.
-/

namespace Inochi2D

/-! ## Preprocessor configuration -/

/-- The expansion of `I2D_CALL` (header lines 11-19), as the list of tokens it
leaves behind, for `_WIN32` and `_MSC_VER` defined or not. -/
def I2D_CALL (win32 msc_ver : Bool) : List String :=
  if win32 then
    if msc_ver then ["__cdecl"] else []
  else
    []

/-- Header line 21. -/
def IN_MAX_ATTACHMENTS : Nat := 8

/-! ## C types and their layout -/

/-- An enumeration declaration: its typedef name and its enumerators with
their values, in source order. -/
structure EnumDecl where
  name : String
  enumerators : List (String × Nat)

mutual
/-- The C types that occur in the records of the header. -/
inductive CType where
  | float
  | uint32_t
  | uchar
  | ptr (pointee : String)
  | enum (decl : EnumDecl)
  | array (elem : CType) (count : Nat)
  | struct (name : String) (fields : CFields)
/-- The member list of a record, in declaration order. -/
inductive CFields where
  | nil
  | cons (name : String) (type : CType) (rest : CFields)
end

/-- Size in bytes of an enumeration type: the compiler picks a 4-byte integer
when every enumerator fits in 32 bits and an 8-byte one otherwise. -/
def EnumDecl.sizeof (e : EnumDecl) : Nat :=
  if e.enumerators.all (fun en => decide (en.2 < 2 ^ 32)) then 4 else 8

/-- Round `off` up to the next multiple of `a`. -/
def alignUp (off a : Nat) : Nat := (off + a - 1) / a * a

mutual
/-- Natural alignment of a type for pointer size `p`: a scalar is aligned to
its size, an array to its element, a record to its strictest member. -/
def CType.alignof (p : Nat) : CType → Nat
  | .float => 4
  | .uint32_t => 4
  | .uchar => 1
  | .ptr _ => p
  | .enum e => e.sizeof
  | .array t _ => t.alignof p
  | .struct _ fs => fs.alignof p
/-- Strictest member alignment of a member list. -/
def CFields.alignof (p : Nat) : CFields → Nat
  | .nil => 1
  | .cons _ t rest => max (t.alignof p) (rest.alignof p)
end

mutual
/-- Size in bytes of a type for pointer size `p`; a record is its members
laid out in order, each at the next multiple of its alignment, the whole
rounded up to the alignment of the record. -/
def CType.sizeof (p : Nat) : CType → Nat
  | .float => 4
  | .uint32_t => 4
  | .uchar => 1
  | .ptr _ => p
  | .enum e => e.sizeof
  | .array t n => n * t.sizeof p
  | .struct _ fs => alignUp (fs.endOffset p 0) (fs.alignof p)
/-- Offset just past the last member when the members are laid out starting
at offset `off`. -/
def CFields.endOffset (p : Nat) : CFields → Nat → Nat
  | .nil, off => off
  | .cons _ t rest, off => rest.endOffset p (alignUp off (t.alignof p) + t.sizeof p)
end

/-- Name and byte offset of every member, laid out starting at `off`. -/
def CFields.offsets (p : Nat) : CFields → Nat → List (String × Nat)
  | .nil, _ => []
  | .cons n t rest, off =>
    (n, alignUp off (t.alignof p)) :: rest.offsets p (alignUp off (t.alignof p) + t.sizeof p)

/-- Name and size in bytes of every member. -/
def CFields.sizes (p : Nat) : CFields → List (String × Nat)
  | .nil => []
  | .cons n t rest => (n, t.sizeof p) :: rest.sizes p

/-- Name and type of every member. -/
def CFields.toList : CFields → List (String × CType)
  | .nil => []
  | .cons n t rest => (n, t) :: rest.toList

/-- Members of a type (empty for a type that is not a record). -/
def CType.fields : CType → CFields
  | .struct _ fs => fs
  | _ => .nil

/-- Member offsets of a record type. -/
def CType.offsets (p : Nat) (t : CType) : List (String × Nat) := t.fields.offsets p 0

/-- Member sizes of a record type. -/
def CType.sizes (p : Nat) (t : CType) : List (String × Nat) := t.fields.sizes p

/-- Bytes of a record that belong to no member. -/
def CType.padding (p : Nat) (t : CType) : Nat :=
  t.sizeof p - ((t.sizes p).map Prod.snd).sum

/-- Type of the member called `n`, if there is one. -/
def CType.fieldType (t : CType) (n : String) : Option CType :=
  (t.fields.toList.find? (fun f => f.1 == n)).map Prod.snd

mutual
/-- Number of `float` scalars a type is made of. -/
def CType.floatCount : CType → Nat
  | .float => 1
  | .array t n => n * t.floatCount
  | .struct _ fs => fs.floatCount
  | _ => 0
/-- Number of `float` scalars in a member list. -/
def CFields.floatCount : CFields → Nat
  | .nil => 0
  | .cons _ t rest => t.floatCount + rest.floatCount
end

/-! ## Records of the header -/

/-- Header lines 30-33. -/
def in_vec2_t : CType :=
  .struct "in_vec2_t" (.cons "x" .float (.cons "y" .float .nil))

/-- Header lines 38-44; `vec3` says whether `IN_VEC3_POSITION` is defined. -/
def in_vtx_t (vec3 : Bool) : CType :=
  .struct "in_vtx_t"
    (.cons "x" .float (.cons "y" .float (if vec3 then .cons "z" .float .nil else .nil)))

/-- Header lines 49-52. -/
def in_vtxdata_t (vec3 : Bool) : CType :=
  .struct "in_vtxdata_t" (.cons "vtx" (in_vtx_t vec3) (.cons "uv" in_vec2_t .nil))

/-- Header lines 587-595. -/
def in_drawstate_t : EnumDecl where
  name := "in_drawstate_t"
  enumerators :=
    [ ("IN_DRAW_STATE_NORMAL", 0),
      ("IN_DRAW_STATE_DEFINE_MASK", 1),
      ("IN_DRAW_STATE_MASKED_DRAW", 2),
      ("IN_DRAW_STATE_COMPOSITE_BEGIN", 3),
      ("IN_DRAW_STATE_COMPOSITE_END", 4),
      ("IN_DRAW_STATE_COMPOSITE_BLIT", 5),
      ("IN_DRAW_STATE_MAX", 0xFFFFFFFF) ]

/-- Header lines 600-604. -/
def in_mask_mode_t : EnumDecl where
  name := "in_mask_mode_t"
  enumerators :=
    [ ("IN_MASK_MODE_MASK", 0),
      ("IN_MASK_MODE_DODGE", 1),
      ("IN_MASK_MODE_MAX", 0xFFFFFFFF) ]

/-- Header lines 609-630. -/
def in_blend_mode_t : EnumDecl where
  name := "in_blend_mode_t"
  enumerators :=
    [ ("IN_BLEND_MODE_NORMAL", 0x00),
      ("IN_BLEND_MODE_MULTIPLY", 0x01),
      ("IN_BLEND_MODE_SCREEN", 0x02),
      ("IN_BLEND_MODE_OVERLAY", 0x03),
      ("IN_BLEND_MODE_DARKEN", 0x04),
      ("IN_BLEND_MODE_LIGHTEN", 0x05),
      ("IN_BLEND_MODE_COLOR_DODGE", 0x06),
      ("IN_BLEND_MODE_LINEAR_DODGE", 0x07),
      ("IN_BLEND_MODE_ADD_GLOW", 0x08),
      ("IN_BLEND_MODE_COLOR_BURN", 0x09),
      ("IN_BLEND_MODE_HARD_LIGHT", 0x0A),
      ("IN_BLEND_MODE_SOFT_LIGHT", 0x0B),
      ("IN_BLEND_MODE_DIFFERENCE", 0x0C),
      ("IN_BLEND_MODE_EXCLUSION", 0x0D),
      ("IN_BLEND_MODE_SUBTRACT", 0x0E),
      ("IN_BLEND_MODE_INVERSE", 0x0F),
      ("IN_BLEND_MODE_DESTINATION_IN", 0x10),
      ("IN_BLEND_MODE_SOURCE_IN", 0x11),
      ("IN_BLEND_MODE_SOURCE_OUT", 0x12),
      ("IN_BLEND_MODE_MAX", 0xFFFFFFFF) ]

/-- Header lines 635-646. -/
def in_drawcmd_t : CType :=
  .struct "in_drawcmd_t"
    (.cons "sources" (.array (.ptr "in_texture_t") IN_MAX_ATTACHMENTS)
    (.cons "state" (.enum in_drawstate_t)
    (.cons "blendMode" (.enum in_blend_mode_t)
    (.cons "maskMode" (.enum in_mask_mode_t)
    (.cons "allocId" .uint32_t
    (.cons "vtxOffset" .uint32_t
    (.cons "idxOffset" .uint32_t
    (.cons "elemCount" .uint32_t
    (.cons "type" .uint32_t
    (.cons "vars" (.array .uchar 64) .nil))))))))))

/-- Header lines 651-657. -/
def in_drawalloc_t : CType :=
  .struct "in_drawalloc_t"
    (.cons "vtxOffset" .uint32_t
    (.cons "idxOffset" .uint32_t
    (.cons "idxCount" .uint32_t
    (.cons "vtxCount" .uint32_t
    (.cons "allocId" .uint32_t .nil)))))

/-! ## Enumerations as codes -/

/-- The enumerator closing an enumeration, whose name ends in `_MAX`. -/
def EnumDecl.isMax (en : String × Nat) : Bool := "_MAX".data.isSuffixOf en.1.data

/-- The `*_MAX` enumerators of an enumeration. -/
def EnumDecl.maxEnumerators (e : EnumDecl) : List (String × Nat) :=
  e.enumerators.filter EnumDecl.isMax

/-- The named enumerators: all but the `*_MAX` one. -/
def EnumDecl.named (e : EnumDecl) : List (String × Nat) :=
  e.enumerators.filter (fun en => !EnumDecl.isMax en)

/-- Every enumerator value is representable in an unsigned integer of `w`
bits. -/
def EnumDecl.fitsUnsigned (e : EnumDecl) (w : Nat) : Bool :=
  e.enumerators.all (fun en => decide (en.2 < 2 ^ w))

/-- Decode a code into the named enumerator that has this value. -/
def EnumDecl.decode (e : EnumDecl) (code : Nat) : Option String :=
  (e.named.find? (fun en => en.2 == code)).map Prod.fst

/-! ## Function prototypes -/

/-- A function prototype as it is written in the header: the return type, the
tokens between the return type and the function name, the name, and the
parameter declarations. -/
structure Prototype where
  ret : String
  qualifiers : List String
  name : String
  params : List String
deriving DecidableEq

/-- The prototypes of the header (lines 98-738), in source order. -/
def prototypes : List Prototype :=
  [
    ⟨"void*", ["I2D_CALL"], "in_retain", ["void* obj"]⟩,
    ⟨"void*", ["I2D_CALL"], "in_release", ["void* obj"]⟩,
    ⟨"const char*", ["I2D_CALL"], "in_get_last_error", []⟩,
    ⟨"in_puppet_t*", ["I2D_CALL"], "in_puppet_load", ["const char* file"]⟩,
    ⟨"in_puppet_t*", ["I2D_CALL"], "in_puppet_load_from_memory", ["const uint8_t* data", "uint32_t length"]⟩,
    ⟨"void", ["I2D_CALL"], "in_puppet_free", ["in_puppet_t* obj"]⟩,
    ⟨"const char*", ["I2D_CALL"], "in_puppet_get_name", ["in_puppet_t* obj"]⟩,
    ⟨"bool", ["I2D_CALL"], "in_puppet_get_physics_enabled", ["in_puppet_t* obj"]⟩,
    ⟨"void", ["I2D_CALL"], "in_puppet_set_physics_enabled", ["in_puppet_t* obj", "bool value"]⟩,
    ⟨"float", ["I2D_CALL"], "in_puppet_get_pixels_per_meter", ["in_puppet_t* obj"]⟩,
    ⟨"void", ["I2D_CALL"], "in_puppet_set_pixels_per_meter", ["in_puppet_t* obj", "float value"]⟩,
    ⟨"float", ["I2D_CALL"], "in_puppet_get_gravity", ["in_puppet_t* obj"]⟩,
    ⟨"void", ["I2D_CALL"], "in_puppet_set_gravity", ["in_puppet_t* obj", "float value"]⟩,
    ⟨"void", ["I2D_CALL"], "in_puppet_update", ["in_puppet_t* obj", "float delta"]⟩,
    ⟨"void", ["I2D_CALL"], "in_puppet_draw", ["in_puppet_t* obj", "float delta"]⟩,
    ⟨"void", ["I2D_CALL"], "in_puppet_reset_drivers", ["in_puppet_t* obj"]⟩,
    ⟨"in_texture_cache_t*", ["I2D_CALL"], "in_puppet_get_texture_cache", ["in_puppet_t* obj"]⟩,
    ⟨"in_parameter_t**", ["I2D_CALL"], "in_puppet_get_parameters", ["in_puppet_t* obj", "uint32_t* count"]⟩,
    ⟨"in_drawlist_t*", ["I2D_CALL"], "in_puppet_get_drawlist", ["in_puppet_t* obj"]⟩,
    ⟨"const char*", ["I2D_CALL"], "in_parameter_get_name", ["in_parameter_t* obj"]⟩,
    ⟨"bool", ["I2D_CALL"], "in_parameter_get_active", ["in_parameter_t* obj"]⟩,
    ⟨"uint32_t", ["I2D_CALL"], "in_parameter_get_dimensions", ["in_parameter_t* obj"]⟩,
    ⟨"in_vec2_t", ["I2D_CALL"], "in_parameter_get_min_value", ["in_parameter_t* obj"]⟩,
    ⟨"in_vec2_t", ["I2D_CALL"], "in_parameter_get_max_value", ["in_parameter_t* obj"]⟩,
    ⟨"in_vec2_t", ["I2D_CALL"], "in_parameter_get_value", ["in_parameter_t* obj"]⟩,
    ⟨"void", ["I2D_CALL"], "in_parameter_set_value", ["in_parameter_t* obj", "in_vec2_t value"]⟩,
    ⟨"in_vec2_t", ["I2D_CALL"], "in_parameter_get_normalized_value", ["in_parameter_t* obj"]⟩,
    ⟨"void", ["I2D_CALL"], "in_parameter_set_normalized_value", ["in_parameter_t* obj", "in_vec2_t value"]⟩,
    ⟨"uint32_t", ["I2D_CALL"], "in_texture_cache_get_size", ["in_texture_cache_t* obj"]⟩,
    ⟨"in_texture_t*", ["I2D_CALL"], "in_texture_cache_get_texture", ["in_texture_cache_t* obj", "uint32_t slot"]⟩,
    ⟨"in_texture_t**", ["I2D_CALL"], "in_texture_cache_get_textures", ["in_texture_cache_t* obj", "uint32_t* count"]⟩,
    ⟨"void", ["I2D_CALL"], "in_texture_cache_prune", ["in_texture_cache_t* obj"]⟩,
    ⟨"uint32_t", ["I2D_CALL"], "in_resource_get_length", ["in_resource_t* obj"]⟩,
    ⟨"void*", ["I2D_CALL"], "in_resource_get_id", ["in_resource_t* obj"]⟩,
    ⟨"void", ["I2D_CALL"], "in_resource_set_id", ["in_resource_t* obj", "void* value"]⟩,
    ⟨"in_texture_t*", ["I2D_CALL"], "in_texture_from_resource", ["in_resource_t* obj"]⟩,
    ⟨"uint32_t", ["I2D_CALL"], "in_texture_get_width", ["in_texture_t* obj"]⟩,
    ⟨"uint32_t", ["I2D_CALL"], "in_texture_get_height", ["in_texture_t* obj"]⟩,
    ⟨"uint32_t", ["I2D_CALL"], "in_texture_get_channels", ["in_texture_t* obj"]⟩,
    ⟨"void", ["I2D_CALL"], "in_texture_flip_vertically", ["in_texture_t* obj"]⟩,
    ⟨"void", ["I2D_CALL"], "in_texture_premultiply", ["in_texture_t* obj"]⟩,
    ⟨"void", ["I2D_CALL"], "in_texture_unpremultiply", ["in_texture_t* obj"]⟩,
    ⟨"void", ["I2D_CALL"], "in_texture_pad", ["in_texture_t* obj", "uint32_t thickness"]⟩,
    ⟨"void*", ["I2D_CALL"], "in_texture_get_pixels", ["in_texture_t* obj"]⟩,
    ⟨"bool", ["I2D_CALL"], "in_drawlist_get_use_base_vertex", ["in_drawlist_t* obj"]⟩,
    ⟨"void", ["I2D_CALL"], "in_drawlist_set_use_base_vertex", ["in_drawlist_t* obj", "bool value"]⟩,
    ⟨"in_drawcmd_t*", ["I2D_CALL"], "in_drawlist_get_commands", ["in_drawlist_t* obj", "uint32_t* count"]⟩,
    ⟨"in_vtxdata_t*", ["I2D_CALL"], "in_drawlist_get_vertex_data", ["in_drawlist_t* obj", "uint32_t* bytes"]⟩,
    ⟨"void*", ["I2D_CALL"], "in_drawlist_get_index_data", ["in_drawlist_t* obj", "uint32_t* bytes"]⟩,
    ⟨"in_drawalloc_t*", ["I2D_CALL"], "in_drawlist_get_allocations", ["in_drawlist_t* obj", "uint32_t* count"]⟩ ]

/-- Replace every `I2D_CALL` token of a prototype by its expansion. -/
def Prototype.expand (win32 msc_ver : Bool) (d : Prototype) : Prototype :=
  { d with qualifiers :=
      d.qualifiers.flatMap (fun t => if t = "I2D_CALL" then I2D_CALL win32 msc_ver else [t]) }

/-! ## Engine behaviour behind the prototypes

The header declares the entry points; their bodies belong to the engine. The
definitions of this section model the behaviour the documentation gives them.
-/

/-- The state of a texture that its accessors show: the dimensions and the
pixel bytes, row after row, `width * channels` bytes to a row. -/
structure Texture where
  width : Nat
  height : Nat
  channels : Nat
  pixels : List Nat

/-- The pixel buffer has one byte per channel of every pixel. -/
def Texture.WellFormed (t : Texture) : Prop :=
  t.pixels.length = t.width * t.channels * t.height

instance (t : Texture) : Decidable t.WellFormed := by
  unfold Texture.WellFormed; infer_instance

/-- Modelled from the spec: the body of `in_texture_get_width` (header lines
502-511) is absent from the header. -/
def in_texture_get_width (obj : Texture) : Nat := obj.width

/-- Modelled from the spec: the body of `in_texture_get_height` (header lines
513-522) is absent from the header. -/
def in_texture_get_height (obj : Texture) : Nat := obj.height

/-- Modelled from the spec: the body of `in_texture_get_channels` (header
lines 524-533) is absent from the header. -/
def in_texture_get_channels (obj : Texture) : Nat := obj.channels

/-- Modelled from the spec: the body of `in_texture_get_pixels` (header lines
569-578) is absent from the header. Returns the pixel bytes. -/
def in_texture_get_pixels (obj : Texture) : List Nat := obj.pixels

/-- Index of the byte that a vertical flip moves to index `i`: the same
column of the row mirrored about the middle of the image. -/
def flipIndex (stride height i : Nat) : Nat :=
  (height - 1 - i / stride) * stride + i % stride

/-- The pixel buffer with its rows of `stride` bytes put in the opposite
order. -/
def flipRows (stride height : Nat) (pixels : List Nat) : List Nat :=
  (List.range pixels.length).map (fun i => pixels.getD (flipIndex stride height i) 0)

/-- Modelled from the spec: the body of `in_texture_flip_vertically` (header
lines 535-542) is absent from the header. The rows of the pixel buffer are put
in the opposite order, in place; the dimensions stay. -/
def in_texture_flip_vertically (obj : Texture) : Texture :=
  { obj with pixels := flipRows (obj.width * obj.channels) obj.height obj.pixels }

/-! ## Layout of the records -/

/-- C1: `in_drawcmd_t` is, in this order, `IN_MAX_ATTACHMENTS = 8` texture
pointers, the eight 4-byte members `state` to `type`, and the 64-byte blob
`vars`; for pointer size 4 and 8 it has no padding, `vars` starts at offset
`8 * p + 32` and the size is `8 * p + 96` bytes, 160 on a 64-bit target. -/
theorem drawcmd_layout (p : Nat) (hp : p = 4 ∨ p = 8) :
    IN_MAX_ATTACHMENTS = 8 ∧
    in_drawcmd_t.fields.toList.map Prod.fst =
      ["sources", "state", "blendMode", "maskMode", "allocId", "vtxOffset", "idxOffset",
        "elemCount", "type", "vars"] ∧
    in_drawcmd_t.fieldType "sources" = some (.array (.ptr "in_texture_t") 8) ∧
    in_drawcmd_t.fieldType "vars" = some (.array .uchar 64) ∧
    in_drawcmd_t.sizes p =
      [("sources", 8 * p), ("state", 4), ("blendMode", 4), ("maskMode", 4), ("allocId", 4),
        ("vtxOffset", 4), ("idxOffset", 4), ("elemCount", 4), ("type", 4), ("vars", 64)] ∧
    in_drawcmd_t.offsets p =
      [("sources", 0), ("state", 8 * p), ("blendMode", 8 * p + 4), ("maskMode", 8 * p + 8),
        ("allocId", 8 * p + 12), ("vtxOffset", 8 * p + 16), ("idxOffset", 8 * p + 20),
        ("elemCount", 8 * p + 24), ("type", 8 * p + 28), ("vars", 8 * p + 32)] ∧
    in_drawcmd_t.padding p = 0 ∧
    in_drawcmd_t.sizeof p = 8 * p + 96 ∧
    in_drawcmd_t.sizeof 8 = 160 := by
  rcases hp with rfl | rfl <;>
  simp [in_drawcmd_t, in_drawalloc_t, in_vtxdata_t, in_vtx_t, in_vec2_t, in_drawstate_t,
    in_blend_mode_t, in_mask_mode_t, IN_MAX_ATTACHMENTS, EnumDecl.sizeof, CType.padding, CType.sizes,
    CFields.sizes, CType.offsets, CType.fields, CFields.offsets, CFields.toList, CType.fieldType,
    CType.alignof, CType.sizeof, alignUp, CFields.endOffset, CFields.alignof, CType.floatCount,
    CFields.floatCount]

/-- The layout of the draw command on a 64-bit target. -/
theorem drawcmd_layout_witness :
    in_drawcmd_t.offsets 8 =
      [("sources", 0), ("state", 64), ("blendMode", 68), ("maskMode", 72),
        ("allocId", 76), ("vtxOffset", 80), ("idxOffset", 84),
        ("elemCount", 88), ("type", 92), ("vars", 96)] ∧
    in_drawcmd_t.padding 8 = 0 ∧ in_drawcmd_t.sizeof 8 = 160 :=
  have h := drawcmd_layout 8 (Or.inr rfl)
  ⟨h.2.2.2.2.2.1, h.2.2.2.2.2.2.1, h.2.2.2.2.2.2.2.2⟩

/-- C3: `in_vtxdata_t` is a position followed by a UV coordinate with no
padding: without `IN_VEC3_POSITION` the position is the floats `x, y`, `uv` is
at offset 8 and the size is 16; with it the position is `x, y, z`, `uv` is at
offset 12 and the size is 20; in both the size is 4 times the number of
floats. -/
theorem vtxdata_layout (p : Nat) :
    (in_vtx_t false).fields.toList = [("x", .float), ("y", .float)] ∧
    (in_vtxdata_t false).fields.toList = [("vtx", in_vtx_t false), ("uv", in_vec2_t)] ∧
    (in_vtxdata_t false).offsets p = [("vtx", 0), ("uv", 8)] ∧
    (in_vtxdata_t false).sizeof p = 16 ∧
    (in_vtxdata_t false).padding p = 0 ∧ (in_vtx_t false).padding p = 0 ∧
    (in_vtx_t true).fields.toList = [("x", .float), ("y", .float), ("z", .float)] ∧
    (in_vtxdata_t true).fields.toList = [("vtx", in_vtx_t true), ("uv", in_vec2_t)] ∧
    (in_vtxdata_t true).offsets p = [("vtx", 0), ("uv", 12)] ∧
    (in_vtxdata_t true).sizeof p = 20 ∧
    (in_vtxdata_t true).padding p = 0 ∧ (in_vtx_t true).padding p = 0 ∧
    in_vec2_t.fields.toList = [("x", .float), ("y", .float)] ∧ in_vec2_t.padding p = 0 ∧
    (in_vtxdata_t false).sizeof p = 4 * (in_vtxdata_t false).floatCount ∧
    (in_vtxdata_t true).sizeof p = 4 * (in_vtxdata_t true).floatCount := by
  simp [in_drawcmd_t, in_drawalloc_t, in_vtxdata_t, in_vtx_t, in_vec2_t, in_drawstate_t,
    in_blend_mode_t, in_mask_mode_t, IN_MAX_ATTACHMENTS, EnumDecl.sizeof, CType.padding, CType.sizes,
    CFields.sizes, CType.offsets, CType.fields, CFields.offsets, CFields.toList, CType.fieldType,
    CType.alignof, CType.sizeof, alignUp, CFields.endOffset, CFields.alignof, CType.floatCount,
    CFields.floatCount]

/-- C4: `in_drawalloc_t` is exactly the five `uint32_t` members `vtxOffset`
(offset 0), `idxOffset` (4), `idxCount` (8), `vtxCount` (12), `allocId` (16),
with no padding and a size of 20 bytes; its `allocId` has the type of the
`allocId` of `in_drawcmd_t`. -/
theorem drawalloc_layout (p : Nat) :
    in_drawalloc_t.fields.toList =
      [("vtxOffset", .uint32_t), ("idxOffset", .uint32_t), ("idxCount", .uint32_t),
        ("vtxCount", .uint32_t), ("allocId", .uint32_t)] ∧
    in_drawalloc_t.offsets p =
      [("vtxOffset", 0), ("idxOffset", 4), ("idxCount", 8), ("vtxCount", 12), ("allocId", 16)] ∧
    in_drawalloc_t.sizes p =
      [("vtxOffset", 4), ("idxOffset", 4), ("idxCount", 4), ("vtxCount", 4), ("allocId", 4)] ∧
    in_drawalloc_t.padding p = 0 ∧
    in_drawalloc_t.sizeof p = 20 ∧
    in_drawalloc_t.fieldType "allocId" = some .uint32_t ∧
    in_drawcmd_t.fieldType "allocId" = in_drawalloc_t.fieldType "allocId" ∧
    CType.uint32_t.sizeof p = 4 := by
  simp [in_drawcmd_t, in_drawalloc_t, in_vtxdata_t, in_vtx_t, in_vec2_t, in_drawstate_t,
    in_blend_mode_t, in_mask_mode_t, IN_MAX_ATTACHMENTS, EnumDecl.sizeof, CType.padding, CType.sizes,
    CFields.sizes, CType.offsets, CType.fields, CFields.offsets, CFields.toList, CType.fieldType,
    CType.alignof, CType.sizeof, alignUp, CFields.endOffset, CFields.alignof, CType.floatCount,
    CFields.floatCount]

/-! ## The enumerations -/

/-- C2: each of `in_drawstate_t`, `in_mask_mode_t`, `in_blend_mode_t` is sized
to 32 bits: every enumerator lies in `0 .. 2^32 - 1`, the enumeration has one
`*_MAX` enumerator, of value `2^32 - 1`, which fits in no unsigned type of
fewer than 32 bits and is strictly greater than every other enumerator. -/
theorem enum_sized_32 (w : Nat) (hw : w < 32) :
    in_drawstate_t.sizeof = 4 ∧
    in_drawstate_t.fitsUnsigned 32 = true ∧
    in_drawstate_t.fitsUnsigned w = false ∧
    in_drawstate_t.enumerators = in_drawstate_t.named ++ in_drawstate_t.maxEnumerators ∧
    in_drawstate_t.maxEnumerators = [("IN_DRAW_STATE_MAX", 2 ^ 32 - 1)] ∧
    (in_drawstate_t.maxEnumerators.all (fun en => decide (2 ^ w ≤ en.2))) = true ∧
    (in_drawstate_t.named.all (fun en => decide (en.2 < 2 ^ 32 - 1))) = true ∧
    in_mask_mode_t.sizeof = 4 ∧
    in_mask_mode_t.fitsUnsigned 32 = true ∧
    in_mask_mode_t.fitsUnsigned w = false ∧
    in_mask_mode_t.enumerators = in_mask_mode_t.named ++ in_mask_mode_t.maxEnumerators ∧
    in_mask_mode_t.maxEnumerators = [("IN_MASK_MODE_MAX", 2 ^ 32 - 1)] ∧
    (in_mask_mode_t.maxEnumerators.all (fun en => decide (2 ^ w ≤ en.2))) = true ∧
    (in_mask_mode_t.named.all (fun en => decide (en.2 < 2 ^ 32 - 1))) = true ∧
    in_blend_mode_t.sizeof = 4 ∧
    in_blend_mode_t.fitsUnsigned 32 = true ∧
    in_blend_mode_t.fitsUnsigned w = false ∧
    in_blend_mode_t.enumerators = in_blend_mode_t.named ++ in_blend_mode_t.maxEnumerators ∧
    in_blend_mode_t.maxEnumerators = [("IN_BLEND_MODE_MAX", 2 ^ 32 - 1)] ∧
    (in_blend_mode_t.maxEnumerators.all (fun en => decide (2 ^ w ≤ en.2))) = true ∧
    (in_blend_mode_t.named.all (fun en => decide (en.2 < 2 ^ 32 - 1))) = true := by
  have h : 2 ^ w ≤ 2 ^ 31 := Nat.pow_le_pow_right (by norm_num) (by omega)
  have h31 : (2 : Nat) ^ 31 = 2147483648 := by norm_num
  have m1 : in_drawstate_t.maxEnumerators = [("IN_DRAW_STATE_MAX", 2 ^ 32 - 1)] := by decide
  have m2 : in_mask_mode_t.maxEnumerators = [("IN_MASK_MODE_MAX", 2 ^ 32 - 1)] := by decide
  have m3 : in_blend_mode_t.maxEnumerators = [("IN_BLEND_MODE_MAX", 2 ^ 32 - 1)] := by decide
  refine ⟨by decide, by decide, ?_, by decide, m1, ?_, by decide,
    by decide, by decide, ?_, by decide, m2, ?_, by decide,
    by decide, by decide, ?_, by decide, m3, ?_, by decide⟩
  · simp [EnumDecl.fitsUnsigned, in_drawstate_t]; intros; omega
  · rw [m1]; simp; omega
  · simp [EnumDecl.fitsUnsigned, in_mask_mode_t]; intros; omega
  · rw [m2]; simp; omega
  · simp [EnumDecl.fitsUnsigned, in_blend_mode_t]; intros; omega
  · rw [m3]; simp; omega

/-- The draw states fit in 32 bits and not in the 16-bit unsigned type. -/
theorem enum_sized_32_witness :
    16 < 32 ∧ in_drawstate_t.fitsUnsigned 32 = true ∧ in_drawstate_t.fitsUnsigned 16 = false :=
  have h := enum_sized_32 16 (by decide)
  ⟨by decide, h.2.1, h.2.2.1⟩

/-- A decoded name is the name of a named enumerator with that code. -/
theorem decode_mem (e : EnumDecl) (c : Nat) (s : String) (h : e.decode c = some s) :
    (s, c) ∈ e.named := by
  unfold EnumDecl.decode at h
  rcases hf : e.named.find? (fun en => en.2 == c) with _ | ⟨n, v⟩
  · rw [hf] at h; simp at h
  · rw [hf] at h
    have h1 := List.find?_some hf
    have h2 := List.mem_of_find?_eq_some hf
    simp at h h1
    subst h h1
    exact h2

/-- Decoding is defined exactly on the codes of the named enumerators. -/
theorem decode_isSome_iff (e : EnumDecl) (c : Nat) :
    (e.decode c).isSome = true ↔ c ∈ e.named.map Prod.snd := by
  unfold EnumDecl.decode
  simp [List.find?_isSome]

/-- In a table without repeated names a name has one code. -/
theorem code_unique_of_nodup_names {l : List (String × Nat)} (hn : (l.map Prod.fst).Nodup)
    {s : String} {a b : Nat} (ha : (s, a) ∈ l) (hb : (s, b) ∈ l) : a = b :=
  (Prod.mk.inj (List.inj_on_of_nodup_map hn ha hb rfl)).2

/-- Decoding of an enumeration whose named enumerators have distinct names and
the codes `0 .. n - 1`. -/
theorem decode_dense (e : EnumDecl) (n : Nat) (hnames : (e.named.map Prod.fst).Nodup)
    (hcodes : e.named.map Prod.snd = List.range n) (a b : Nat) :
    ((e.decode a).isSome = true ↔ a < n) ∧
    ((e.decode a).isSome = true → e.decode a = e.decode b → a = b) ∧
    (n - 1 < a → a < 0xFFFFFFFF → e.decode a = none) := by
  have hiff : ∀ c, (e.decode c).isSome = true ↔ c < n := by
    intro c
    rw [decode_isSome_iff, hcodes, List.mem_range]
  refine ⟨hiff a, ?_, ?_⟩
  · intro hs heq
    obtain ⟨s, hsa⟩ := Option.isSome_iff_exists.mp hs
    have hsb : e.decode b = some s := by rw [← heq]; exact hsa
    exact code_unique_of_nodup_names hnames (decode_mem e a s hsa) (decode_mem e b s hsb)
  · intro hlo _
    cases hd : e.decode a with
    | none => rfl
    | some s =>
      have : a < n := (hiff a).mp (by rw [hd]; rfl)
      omega

/-- C10: in each of the three enumerations the enumerators are pairwise
distinct and the named ones have exactly the codes `0 .. 5` (draw states),
`0 .. 1` (mask modes), `0x00 .. 0x12` (blend modes); decoding a code into a
named enumerator is defined exactly on these codes, injective, and undefined
strictly between the last named code and `0xFFFFFFFF`. -/
theorem enum_decode (e : EnumDecl)
    (he : e = in_drawstate_t ∨ e = in_mask_mode_t ∨ e = in_blend_mode_t) (a b : Nat) :
    (e.enumerators.map Prod.snd).Nodup ∧
    (e.enumerators.map Prod.fst).Nodup ∧
    e.named.map Prod.snd = List.range e.named.length ∧
    in_drawstate_t.named.map Prod.snd = List.range 6 ∧
    in_mask_mode_t.named.map Prod.snd = List.range 2 ∧
    in_blend_mode_t.named.map Prod.snd = List.range (0x12 + 1) ∧
    in_blend_mode_t.named.length = 19 ∧
    ((e.decode a).isSome = true ↔ a < e.named.length) ∧
    ((e.decode a).isSome = true → e.decode a = e.decode b → a = b) ∧
    (e.named.length - 1 < a → a < 0xFFFFFFFF → e.decode a = none) := by
  have h1 : in_drawstate_t.named.map Prod.snd = List.range 6 := by decide
  have h2 : in_mask_mode_t.named.map Prod.snd = List.range 2 := by decide
  have h3 : in_blend_mode_t.named.map Prod.snd = List.range (0x12 + 1) := by decide
  refine ⟨?_, ?_, ?_, h1, h2, h3, by decide, ?_⟩
  · rcases he with rfl | rfl | rfl <;> decide
  · rcases he with rfl | rfl | rfl <;> decide
  · rcases he with rfl | rfl | rfl <;> decide
  · rcases he with rfl | rfl | rfl
    · exact decode_dense in_drawstate_t _ (by decide) (by decide) a b
    · exact decode_dense in_mask_mode_t _ (by decide) (by decide) a b
    · exact decode_dense in_blend_mode_t _ (by decide) (by decide) a b

/-- The blend modes at the last named code, 0x12, and at the code after
it. -/
theorem enum_decode_witness :
    (in_blend_mode_t = in_drawstate_t ∨ in_blend_mode_t = in_mask_mode_t ∨
      in_blend_mode_t = in_blend_mode_t) ∧
    ((in_blend_mode_t.decode 0x12).isSome = true ↔ 0x12 < in_blend_mode_t.named.length) ∧
    (in_blend_mode_t.named.length - 1 < 0x13 → 0x13 < 0xFFFFFFFF →
      in_blend_mode_t.decode 0x13 = none) :=
  ⟨Or.inr (Or.inr rfl),
    (enum_decode in_blend_mode_t (Or.inr (Or.inr rfl)) 0x12 0x12).2.2.2.2.2.2.2.1,
    (enum_decode in_blend_mode_t (Or.inr (Or.inr rfl)) 0x13 0x13).2.2.2.2.2.2.2.2.2⟩

/-! ## The calling convention -/

/-- C5, as the header has it: `I2D_CALL` expands to `__cdecl` exactly when
`_WIN32` and `_MSC_VER` are both defined and to nothing in the three other
configurations; the header declares 50 entry points, every one of them with
`I2D_CALL` between its return type and its name. -/
theorem i2d_call_expansion (win32 msc_ver : Bool) :
    I2D_CALL win32 msc_ver = (if win32 && msc_ver then ["__cdecl"] else []) ∧
    prototypes.length = 50 ∧
    (prototypes.map Prototype.name).Nodup ∧
    (prototypes.all (fun d => decide (d.qualifiers = ["I2D_CALL"]))) = true ∧
    ((prototypes.map (Prototype.expand win32 msc_ver)).all
      (fun d => decide (d.qualifiers = I2D_CALL win32 msc_ver))) = true := by
  cases win32 <;> cases msc_ver <;> decide

/-- C5 fails as stated: with `_WIN32` defined and `_MSC_VER` not defined,
`I2D_CALL` expands to nothing, not to `__cdecl`. -/
theorem i2d_call_win32_without_msc_ver :
    I2D_CALL true false = [] ∧ I2D_CALL true false ≠ ["__cdecl"] ∧
    ((prototypes.map (Prototype.expand true false)).all
      (fun d => decide (d.qualifiers = []))) = true := by
  decide

/-! ## Flipping a texture -/

theorem flipIndex_lt (s h i : Nat) (hi : i < s * h) : flipIndex s h i < s * h := by
  unfold flipIndex
  have hs : 0 < s := by
    rcases Nat.eq_zero_or_pos s with h0 | h0
    · subst h0; simp at hi
    · exact h0
  have hr : i / s < h := by
    rw [Nat.div_lt_iff_lt_mul hs, Nat.mul_comm]; exact hi
  have hc : i % s < s := Nat.mod_lt _ hs
  generalize i / s = r at hr ⊢
  generalize i % s = c at hc ⊢
  have hle : h - 1 - r + 1 ≤ h := by omega
  have hmul : (h - 1 - r + 1) * s ≤ h * s := Nat.mul_le_mul_right s hle
  rw [Nat.add_mul, Nat.one_mul] at hmul
  rw [Nat.mul_comm s h]
  omega

theorem flipIndex_flipIndex (s h i : Nat) (hi : i < s * h) :
    flipIndex s h (flipIndex s h i) = i := by
  unfold flipIndex
  have hs : 0 < s := by
    rcases Nat.eq_zero_or_pos s with h0 | h0
    · subst h0; simp at hi
    · exact h0
  have hr : i / s < h := by
    rw [Nat.div_lt_iff_lt_mul hs, Nat.mul_comm]; exact hi
  have hc : i % s < s := Nat.mod_lt _ hs
  have hd : ((h - 1 - i / s) * s + i % s) / s = h - 1 - i / s := by
    rw [Nat.add_comm, Nat.add_mul_div_right _ _ hs, Nat.div_eq_of_lt hc, Nat.zero_add]
  have hm : ((h - 1 - i / s) * s + i % s) % s = i % s := by
    rw [Nat.add_comm, Nat.add_mul_mod_self_right, Nat.mod_mod]
  rw [hd, hm]
  have hsub : h - 1 - (h - 1 - i / s) = i / s := by
    generalize i / s = r at hr
    omega
  rw [hsub, Nat.mul_comm]
  exact Nat.div_add_mod i s

theorem flipRows_length (s h : Nat) (px : List Nat) : (flipRows s h px).length = px.length := by
  simp [flipRows]

theorem flipRows_getD (s h : Nat) (px : List Nat) (i : Nat) (hi : i < px.length) :
    (flipRows s h px).getD i 0 = px.getD (flipIndex s h i) 0 := by
  simp [flipRows, List.getD_eq_getElem?_getD, List.getElem?_map, List.getElem?_range hi]

theorem flipRows_flipRows (s h : Nat) (px : List Nat) (hlen : px.length = s * h) :
    flipRows s h (flipRows s h px) = px := by
  apply List.ext_getElem
  · simp [flipRows_length]
  · intro i h1 h2
    have hi : i < s * h := by rw [← hlen]; exact h2
    have hf : flipIndex s h i < px.length := by rw [hlen]; exact flipIndex_lt s h i hi
    have e1 : (flipRows s h (flipRows s h px))[i] = (flipRows s h (flipRows s h px)).getD i 0 := by
      rw [List.getD_eq_getElem _ _ h1]
    have e2 : px[i] = px.getD i 0 := by rw [List.getD_eq_getElem _ _ h2]
    rw [e1, e2, flipRows_getD _ _ _ _ (by rw [flipRows_length]; exact h2),
      flipRows_getD _ _ _ _ hf, flipIndex_flipIndex s h i hi]

/-- C8: flipping a texture vertically twice restores the bytes that
`in_texture_get_pixels` returns, and leaves the width, the height and the
channel count as they were. -/
theorem texture_flip_twice (t : Texture) (ht : t.WellFormed) :
    in_texture_get_pixels (in_texture_flip_vertically (in_texture_flip_vertically t)) =
      in_texture_get_pixels t ∧
    in_texture_get_width (in_texture_flip_vertically (in_texture_flip_vertically t)) =
      in_texture_get_width t ∧
    in_texture_get_height (in_texture_flip_vertically (in_texture_flip_vertically t)) =
      in_texture_get_height t ∧
    in_texture_get_channels (in_texture_flip_vertically (in_texture_flip_vertically t)) =
      in_texture_get_channels t :=
  ⟨flipRows_flipRows (t.width * t.channels) t.height t.pixels ht, rfl, rfl, rfl⟩

/-- A texture of 2 by 3 pixels with one channel, flipped once and twice. -/
theorem texture_flip_twice_witness :
    Texture.WellFormed ⟨2, 3, 1, [1, 2, 3, 4, 5, 6]⟩ ∧
    in_texture_get_pixels (in_texture_flip_vertically ⟨2, 3, 1, [1, 2, 3, 4, 5, 6]⟩) =
      [5, 6, 3, 4, 1, 2] ∧
    in_texture_get_pixels (in_texture_flip_vertically
      (in_texture_flip_vertically ⟨2, 3, 1, [1, 2, 3, 4, 5, 6]⟩)) = [1, 2, 3, 4, 5, 6] :=
  ⟨by decide, by decide, (texture_flip_twice ⟨2, 3, 1, [1, 2, 3, 4, 5, 6]⟩ (by decide)).1⟩

end Inochi2D
